import Mathlib

/-!
Verification development for the gswx METAR decoder
(source file src/gswx_classes.py, class PointMETAR).

The Python source is shallowly embedded below.  Python strings are Lean
Strings manipulated through their character lists; Python exceptions are
the error side of Except; float arithmetic on the visibility fraction is
modelled exactly over the rationals; the ambient wall-clock date read by
datetime.date.today() is made an explicit (year, month) parameter.
-/

namespace Gswx

/-- PyErr enumerates the Python exception kinds that the decoder can raise:
IndexError from a [0] index on an empty filtered list (a required group
cannot be located), AttributeError from calling split on the None left by a
failed temperature search, ValueError from int()/float()/strptime()/tuple
unpacking, KeyError from a failed dict lookup, ZeroDivisionError from the
visibility fraction. -/
inductive PyErr where
  | indexError
  | valueError
  | attributeError
  | keyError
  | zeroDivisionError
deriving DecidableEq, Repr

/-- charsPre n h decides whether the character list n is a prefix of h. -/
def charsPre : List Char → List Char → Bool
  | [], _ => true
  | _ :: _, [] => false
  | a :: as2, b :: bs => a == b && charsPre as2 bs

/-- containsSub n h decides whether n occurs as a contiguous substring of h;
this embeds the Python expression n in h on strings. -/
def containsSub : List Char → List Char → Bool
  | n, [] => charsPre n []
  | n, c :: t => charsPre n (c :: t) || containsSub n t

/-- pyIn needle hay embeds the Python membership test needle in hay. -/
def pyIn (needle hay : String) : Bool := containsSub needle.data hay.data

/-- pyEndsWith s pat embeds the Python call s.endswith(pat). -/
def pyEndsWith (s pat : String) : Bool :=
  charsPre pat.data.reverse s.data.reverse

/-- strTake s n embeds the Python slice s[:n] for nonnegative n. -/
def strTake (s : String) (n : Nat) : String := ⟨s.data.take n⟩

/-- strDrop s n embeds the Python slice s[n:] for nonnegative n. -/
def strDrop (s : String) (n : Nat) : String := ⟨s.data.drop n⟩

/-- strDropLast s n embeds the Python slice s[:-n] for positive n. -/
def strDropLast (s : String) (n : Nat) : String :=
  ⟨s.data.take (s.data.length - n)⟩

/-- splitChars sep cs acc is the worker for the Python str.split(sep) with a
one-character separator: separators are not collapsed, so doubled
separators produce empty fields, and the result is never the empty list. -/
def splitChars (sep : Char) : List Char → List Char → List (List Char)
  | [], acc => [acc.reverse]
  | c :: rest, acc =>
    if c == sep then acc.reverse :: splitChars sep rest []
    else splitChars sep rest (c :: acc)

/-- pySplitC s sep embeds the Python call s.split(sep) for a one-character
separator string. -/
def pySplitC (s : String) (sep : Char) : List String :=
  (splitChars sep s.data []).map (fun l => ⟨l⟩)

/-- pyContains parts x embeds the Python membership test x in parts on a
list of strings. -/
def pyContains (parts : List String) (x : String) : Bool :=
  parts.any (fun p => p == x)

/-- digitsToNat reads a nonempty all-digit character list as a Nat. -/
def digitsToNat (l : List Char) : Option Nat :=
  if l.isEmpty then none
  else if l.all Char.isDigit then
    some (l.foldl (fun a c => 10 * a + (c.toNat - 48)) 0)
  else none

/-- pyIntOpt embeds the Python call int(s) on decimal string literals: an
optional sign followed by at least one digit.  (The whitespace and
underscore tolerance of the CPython parser is not used by the decoder and
is not modelled.)  none stands for a raised ValueError. -/
def pyIntOpt (s : String) : Option Int :=
  match s.data with
  | '+' :: rest => (digitsToNat rest).map Int.ofNat
  | '-' :: rest => (digitsToNat rest).map (fun n => -(Int.ofNat n))
  | l => (digitsToNat l).map Int.ofNat

/-- natVal reads an all-digit character list as a Nat, 0 when empty. -/
def natVal (l : List Char) : Nat :=
  l.foldl (fun a c => 10 * a + (c.toNat - 48)) 0

/-- pyFloatCore reads an unsigned decimal literal, with an optional point,
as an exact rational. -/
def pyFloatCore (l : List Char) : Option ℚ :=
  match splitChars '.' l [] with
  | [ip] =>
    if !ip.isEmpty && ip.all Char.isDigit then some ((natVal ip : ℚ)) else none
  | [ip, fp] =>
    if (!ip.isEmpty || !fp.isEmpty) && ip.all Char.isDigit
        && fp.all Char.isDigit then
      some ((natVal ip : ℚ) + (natVal fp : ℚ) / ((10 : ℚ) ^ fp.length))
    else none
  | _ => none

/-- pyFloatOpt embeds the Python call float(s) on plain decimal literals,
the only shapes the visibility decoder feeds it; float arithmetic is
modelled exactly over ℚ.  none stands for a raised ValueError. -/
def pyFloatOpt (s : String) : Option ℚ :=
  match s.data with
  | '+' :: rest => pyFloatCore rest
  | '-' :: rest => (pyFloatCore rest).map (fun q => -q)
  | l => pyFloatCore l

/-- PyDatetime is the result of datetime.datetime.strptime in parse: a
timezone-aware datetime whose offset is always UTC. -/
structure PyDatetime where
  year : Nat
  month : Nat
  day : Nat
  hour : Nat
  minute : Nat
deriving DecidableEq, Repr

/-- isLeap is the Gregorian leap-year rule used by datetime. -/
def isLeap (y : Nat) : Bool :=
  y % 4 == 0 && (y % 100 != 0 || y % 400 == 0)

/-- daysInMonth is the month-length table used by datetime when validating
a day-of-month. -/
def daysInMonth (y m : Nat) : Nat :=
  if m == 2 then (if isLeap y then 29 else 28)
  else if m == 4 || m == 6 || m == 9 || m == 11 then 30
  else 31

/-- digits6 splits a six-digit character list into three two-digit
values. -/
def digits6 (l : List Char) : Option (Nat × Nat × Nat) :=
  match l with
  | [a, b, c, d, e, f] =>
    if [a, b, c, d, e, f].all Char.isDigit then
      some (10 * (a.toNat - 48) + (b.toNat - 48),
            (10 * (c.toNat - 48) + (d.toNat - 48),
             10 * (e.toNat - 48) + (f.toNat - 48)))
    else none
  | _ => none

/-- parseTimestamp embeds lines 144-148 of parse: the trailing Z of the
located token is cut off, the current year and month are prepended, and
the result goes through strptime with format Y-m-d-H-M-z.  strptime is
modelled on the canonical six-digit day-hour-minute body (day checked
against the month length, hour at most 23, minute at most 59); the
lenient variable-width fallbacks of strptime on malformed bodies are not
modelled, and a failure is ValueError. -/
def parseTimestamp (today : Nat × Nat) (tok : String) : Except PyErr PyDatetime :=
  match digits6 (tok.data.dropLast) with
  | none => .error .valueError
  | some (d, h, m) =>
    if 1 ≤ d ∧ d ≤ daysInMonth today.1 today.2 ∧ h ≤ 23 ∧ m ≤ 59 then
      .ok ⟨today.1, today.2, d, h, m⟩
    else .error .valueError

/-- METAR_WXCODES is the weather-phenomenon table of gswx_classes.py:
code, display name, severity flag, in source order. -/
def METAR_WXCODES : List (String × String × Bool) :=
  [("BR", ("mist", false)),
   ("DS", ("dust storm", true)),
   ("DU", ("widespread dust", false)),
   ("DZ", ("drizzle", false)),
   ("FG", ("fog", false)),
   ("FC", ("tornado", true)),
   ("FU", ("smoke", false)),
   ("GR", ("hail", true)),
   ("GS", ("small hail", false)),
   ("HZ", ("haze", false)),
   ("IC", ("ice crystals", false)),
   ("PL", ("ice pellets", false)),
   ("PO", ("dust devils", true)),
   ("RA", ("rain", false)),
   ("SA", ("sand", false)),
   ("SG", ("snow grains", false)),
   ("SH", ("shower", false)),
   ("SN", ("snow", false)),
   ("SQ", ("squall", true)),
   ("SS", ("sandstorm", true)),
   ("TS", ("thunderstorm", true)),
   ("VA", ("volcanic ash", true)),
   ("UP", ("unidentified precip", false))]

/-- METAR_WXMODS is the weather-modifier table of gswx_classes.py:
code, display name, sort order, in source order. -/
def METAR_WXMODS : List (String × String × Int) :=
  [("+", ("heavy", 100)),
   ("-", ("slight", 100)),
   ("BC", ("patches", -5)),
   ("BL", ("blowing", 5)),
   ("DR", ("low drifting", 4)),
   ("FZ", ("freezing", 6)),
   ("MI", ("shallow", 3)),
   ("VC", ("in vicinity", -6)),
   ("RE", ("recent", 2))]

/-- CLOUDS is the sky-cover table of gswx_classes.py: code, display name,
octas (the source stores the literal 1.5, 3.5 and the sentinel -1; the
display typo overcase is the source text). -/
def CLOUDS : List (String × String × ℚ) :=
  [("SKC", ("clear", 0)),
   ("NSC", ("no significant clouds", 0)),
   ("FEW", ("few", 3 / 2)),
   ("SCT", ("scattered", 7 / 2)),
   ("BKN", ("broken", 6)),
   ("OVC", ("overcase", 8)),
   ("CB", ("cumulonimbus", -1)),
   ("TCU", ("thunderstorm", -1))]

/-- tblLookup embeds a Python dict lookup on the association lists above
(key sets are duplicate-free, so first match equals dict semantics). -/
def tblLookup {β : Type} (key : String) : List (String × β) → Option β
  | [] => none
  | (k, v) :: rest => if k == key then some v else tblLookup key rest

/-- findFirst embeds the Python idiom of a list comprehension filtered by a
predicate followed by [0]: the first token satisfying the predicate. -/
def findFirst (q : String → Bool) (parts : List String) : Option String :=
  (parts.filter q).head?

/-- isZTok is the timestamp-finder predicate of line 141:
p.endswith(Z). -/
def isZTok (p : String) : Bool := pyEndsWith p "Z"

/-- isWindTok is the wind-finder predicate of line 151: KT in p. -/
def isWindTok (p : String) : Bool := pyIn "KT" p

/-- isVisTok is the visibility-finder predicate of line 238:
p.endswith(SM). -/
def isVisTok (p : String) : Bool := pyEndsWith p "SM"

/-- isCloudTok is the cloud-layer predicate of lines 216-220: some key of
CLOUDS occurs as a substring of the token. -/
def isCloudTok (p : String) : Bool := CLOUDS.any (fun kv => pyIn kv.1 p)

/-- isWxTok is the weather-field predicate of lines 254-260: some key of
METAR_WXCODES occurs as a substring of the token. -/
def isWxTok (p : String) : Bool := METAR_WXCODES.any (fun kv => pyIn kv.1 p)

/-- pyRemarks embeds lines 131-135: parts from the first RMK token onward
(inclusive), and the empty list when index raises ValueError. -/
def pyRemarks : List String → List String
  | [] => []
  | p :: rest => if p == "RMK" then p :: rest else pyRemarks rest

/-- decodeWindDir embeds lines 157-164 applied to a wind segment already
stripped of its gust part: the leading three characters become the
direction, as an Int when int() succeeds and otherwise verbatim (the VRB
case); the rest must parse as the integer speed. -/
def decodeWindDir (seg : String) (gust : Int) :
    Except PyErr ((Int ⊕ String) × Int × Int) :=
  let dirStr := strTake seg 3
  let dir : Int ⊕ String :=
    match pyIntOpt dirStr with
    | some n => .inl n
    | none => .inr dirStr
  match pyIntOpt (strDrop seg 3) with
  | some spd => .ok (dir, spd, gust)
  | none => .error .valueError

/-- decodeWind embeds lines 151-164 applied to the located wind token: the
trailing two characters are cut, an optional gust part after G is split
off and parsed first, then direction and speed are decoded. -/
def decodeWind (tok : String) : Except PyErr ((Int ⊕ String) × Int × Int) :=
  let seg := strDropLast tok 2
  if pyIn "G" seg then
    match pySplitC seg 'G' with
    | a :: b :: _ =>
      match pyIntOpt b with
      | some g => decodeWindDir a g
      | none => .error .valueError
    | _ => .error .indexError
  else decodeWindDir seg 0

/-- twoDig consumes two leading digits, as in the regex piece
[0-9] twice. -/
def twoDig : List Char → Option (List Char)
  | a :: b :: rest => if a.isDigit && b.isDigit then some rest else none
  | _ => none

/-- dropM consumes an optional leading M, as in the regex piece M
optional. -/
def dropM : List Char → List Char
  | 'M' :: rest => rest
  | l => l

/-- tempMatch embeds the anchored search tempre.match of line 170 with the
pattern of line 167: optional M, two digits, slash, optional M, two
digits, matched as a prefix of the token. -/
def tempMatch (s : String) : Bool :=
  match twoDig (dropM s.data) with
  | none => false
  | some rest =>
    match rest with
    | '/' :: rest2 =>
      match twoDig (dropM rest2) with
      | none => false
      | some _ => true
    | _ => false

/-- tempSide embeds lines 174-181 for one side of the slash: a leading M
anywhere in the side makes the value the negated int() of the side without
its first character. -/
def tempSide (s : String) : Except PyErr Int :=
  if pyIn "M" s then
    match pyIntOpt (strDrop s 1) with
    | some n => .ok (-n)
    | none => .error .valueError
  else
    match pyIntOpt s with
    | some n => .ok n
    | none => .error .valueError

/-- decodeTemp embeds line 173 onward: the located token splits on the
slash into exactly two sides (tuple unpacking raises ValueError
otherwise), each decoded by tempSide. -/
def decodeTemp (tok : String) : Except PyErr (Int × Int) :=
  match pySplitC tok '/' with
  | [l, r] =>
    match tempSide l with
    | .error e => .error e
    | .ok t =>
      match tempSide r with
      | .error e => .error e
      | .ok dp => .ok (t, dp)
  | _ => .error .valueError

/-- decodeLayer embeds lines 226-230 for one cloud token: the leading three
characters are the dict key (KeyError when absent), the rest is int()-ed,
multiplied by 100 and rendered with the format string of line 224. -/
def decodeLayer (layer : String) : Except PyErr String :=
  let cloud := strTake layer 3
  let alt := strDrop layer 3
  match tblLookup cloud CLOUDS with
  | none => .error .keyError
  | some (name, _) =>
    match pyIntOpt alt with
    | none => .error .valueError
    | some a => .ok (name ++ " at " ++ toString (a * 100))

/-- decodeLayers runs decodeLayer over the collected cloud tokens in
order, stopping at the first raised exception. -/
def decodeLayers : List String → Except PyErr (List String)
  | [] => .ok []
  | l :: rest =>
    match decodeLayer l with
    | .error e => .error e
    | .ok d =>
      match decodeLayers rest with
      | .error e => .error e
      | .ok ds => .ok (d :: ds)

/-- parse_ceil embeds lines 204-230: short-circuit to no layers on NSC or
SKC, else decode every token containing a cloud code, in token order. -/
def parse_ceil (parts : List String) : Except PyErr (List String) :=
  if pyContains parts "NSC" || pyContains parts "SKC" then .ok []
  else decodeLayers (parts.filter isCloudTok)

/-- decodeVis embeds lines 238-245 for the located visibility token: strip
the two-character unit, try int(), and on failure split on the slash into
exactly two parts whose float() quotient is the visibility. -/
def decodeVis (tok : String) : Except PyErr ℚ :=
  let numpt := strDropLast tok 2
  match pyIntOpt numpt with
  | some n => .ok ((n : ℚ))
  | none =>
    match pySplitC numpt '/' with
    | [a, b] =>
      match pyFloatOpt a, pyFloatOpt b with
      | some fa, some fb =>
        if fb = 0 then .error .zeroDivisionError else .ok (fa / fb)
      | _, _ => .error .valueError
    | _ => .error .valueError

/-- parse_vis embeds lines 232-245. -/
def parse_vis (parts : List String) : Except PyErr ℚ :=
  match findFirst isVisTok parts with
  | none => .error .indexError
  | some v => decodeVis v

/-- isWxCodeKey tests membership in the keys of METAR_WXCODES. -/
def isWxCodeKey (s : String) : Bool := (tblLookup s METAR_WXCODES).isSome

/-- isWxModKey tests membership in the keys of METAR_WXMODS. -/
def isWxModKey (s : String) : Bool := (tblLookup s METAR_WXMODS).isSome

/-- gobble embeds the character loop of lines 269-279: characters
accumulate until the accumulator is exactly a weather-code key (emitted to
codes) or, failing that, exactly a modifier key (emitted to modifiers);
the modifier list starts holding the single None placeholder. -/
def gobble (cs : List Char) (gob : List Char) (codes : List String)
    (mods : List (Option String)) : List String × List (Option String) :=
  match cs with
  | [] => (codes, mods)
  | c :: rest =>
    if isWxCodeKey ⟨gob ++ [c]⟩ then
      gobble rest [] (codes ++ [⟨gob ++ [c]⟩]) mods
    else if isWxModKey ⟨gob ++ [c]⟩ then
      gobble rest [] codes (mods ++ [some ⟨gob ++ [c]⟩])
    else gobble rest (gob ++ [c]) codes mods

/-- decodeWx runs gobble over the located weather token with the initial
state of lines 269-271. -/
def decodeWx (field : String) : List String × List (Option String) :=
  gobble field.data [] [] [none]

/-- wxName embeds line 283; every emitted code is a table key, so the
fallback (which in Python would be an uncaught KeyError) is never taken
and returns the code itself. -/
def wxName (c : String) : String :=
  match tblLookup c METAR_WXCODES with
  | some (n, _) => n
  | none => c

/-- modNameSelf embeds lines 287-291: a modifier that is a table key is
replaced by its display name; the KeyError branch leaves the entry
unchanged. -/
def modNameSelf (m : String) : String :=
  match tblLookup m METAR_WXMODS with
  | some (n, _) => n
  | none => m

/-- sortKey embeds the lambda of line 285: None keeps key 0, a modifier
gets the negation of its table order (every sorted entry is a key, so the
fallback 0 for a non-key, a KeyError in Python, is never taken). -/
def sortKey (m : Option String) : Int :=
  match m with
  | none => 0
  | some s =>
    -(match tblLookup s METAR_WXMODS with
      | some (_, p) => p
      | none => 0)

/-- insertAsc inserts one element into an ascending-by-sortKey list,
after every element whose key is not greater, preserving the relative
order of equal keys. -/
def insertAsc (x : Option String) : List (Option String) → List (Option String)
  | [] => [x]
  | y :: ys => if sortKey y ≤ sortKey x then y :: insertAsc x ys else x :: y :: ys

/-- pySortMods embeds the stable ascending modifiers.sort(key=k) of line
286 as a stable insertion sort. -/
def pySortMods (l : List (Option String)) : List (Option String) :=
  l.foldl (fun acc x => insertAsc x acc) []

/-- namedMods is the modifier list after sorting and name replacement
(lines 284-291), with the None placeholder preserved. -/
def namedMods (field : String) : List (Option String) :=
  (pySortMods (decodeWx field).2).map (Option.map modNameSelf)

/-- codeNames is the decoded phenomenon list after name replacement
(lines 282-283), in discovery order. -/
def codeNames (field : String) : List String :=
  (decodeWx field).1.map wxName

/-- renderOut embeds the flattening loop of lines 295-301: modifiers are
emitted in order and the full code list is emitted at each None. -/
def renderOut (mods : List (Option String)) (codes : List String) : List String :=
  match mods with
  | [] => []
  | some m :: rest => m :: renderOut rest codes
  | none :: rest => codes ++ renderOut rest codes

/-- renderWx is the weather string produced from a located weather token:
lines 269-303. -/
def renderWx (field : String) : String :=
  String.intercalate " " (renderOut (namedMods field) (codeNames field))

/-- parse_wx embeds lines 247-303: the first token containing a weather
code is rendered; with no such token the weather is the literal
nothing-with-bang sentinel of line 264. -/
def parse_wx (parts : List String) : String :=
  match findFirst isWxTok parts with
  | none => "nothing!"
  | some f => renderWx f

/-- parse_cav embeds lines 185-202: a literal CAVOK token short-circuits
clouds, visibility and weather in one shot; otherwise the three
sub-parsers run in order. -/
def parse_cav (parts : List String) :
    Except PyErr (List String × ℚ × String) :=
  if pyContains parts "CAVOK" then .ok ([], 10, "")
  else
    match parse_ceil parts with
    | .error e => .error e
    | .ok cl =>
      match parse_vis parts with
      | .error e => .error e
      | .ok v => .ok (cl, v, parse_wx parts)

/-- tsStage embeds line 141 plus parseTimestamp: the first token ending in
Z ([0] on the filtered list raises IndexError when none exists). -/
def tsStage (today : Nat × Nat) (parts : List String) : Except PyErr PyDatetime :=
  match findFirst isZTok parts with
  | none => .error .indexError
  | some t => parseTimestamp today t

/-- windStage embeds lines 151-164: the first token containing KT. -/
def windStage (parts : List String) : Except PyErr ((Int ⊕ String) × Int × Int) :=
  match findFirst isWindTok parts with
  | none => .error .indexError
  | some t => decodeWind t

/-- tempStage embeds lines 167-181: the first token matching tempre; when
none matches, tempgroup stays None and the split call on line 173 raises
AttributeError. -/
def tempStage (parts : List String) : Except PyErr (Int × Int) :=
  match findFirst tempMatch parts with
  | none => .error .attributeError
  | some t => decodeTemp t

/-- Obs is the decoded observation: the fields of PointMETAR assigned by
parse, with the source attribute names.  The pressure and location
attributes are initialised but never assigned by parse and are omitted. -/
structure Obs where
  loc_code : String
  auto : Bool
  remarks : List String
  timestamp : PyDatetime
  winddir : Int ⊕ String
  windspd : Int
  windgust : Int
  temp : Int
  dewpt : Int
  clouds : List String
  vis : ℚ
  weather : String
deriving DecidableEq, Repr

/-- parseTokens is the body of PointMETAR.parse (lines 116-202) over the
already-split token list: location, AUTO flag and remarks first (these
cannot raise), then timestamp, wind, temperature, and the
ceiling-visibility-weather dispatcher, failing at the first raised
exception. -/
def parseTokens (today : Nat × Nat) (parts : List String) : Except PyErr Obs :=
  match parts with
  | [] => .error .indexError
  | loc :: _ =>
    match tsStage today parts with
    | .error e => .error e
    | .ok ts =>
      match windStage parts with
      | .error e => .error e
      | .ok (wd, ws, wg) =>
        match tempStage parts with
        | .error e => .error e
        | .ok (t, dp) =>
          match parse_cav parts with
          | .error e => .error e
          | .ok (cl, v, w) =>
            .ok { loc_code := loc, auto := pyContains parts "AUTO",
                  remarks := pyRemarks parts, timestamp := ts,
                  winddir := wd, windspd := ws, windgust := wg,
                  temp := t, dewpt := dp, clouds := cl, vis := v,
                  weather := w }

/-- parse embeds PointMETAR parsing of a raw report string: split on
single spaces (line 120) and decode.  The explicit today parameter is the
(year, month) read from datetime.date.today() on line 145. -/
def parse (today : Nat × Nat) (s : String) : Except PyErr Obs :=
  parseTokens today (pySplitC s ' ')

/-- isOkE tests for the success side of a decode result. -/
def isOkE {α : Type} (e : Except PyErr α) : Bool :=
  match e with
  | .ok _ => true
  | .error _ => false

/-- stripRemarks blanks the remarks field, leaving every decoded field. -/
def stripRemarks (o : Obs) : Obs := { o with remarks := [] }

instance {ε α : Type} [DecidableEq ε] [DecidableEq α] : DecidableEq (Except ε α) :=
  fun x y =>
    match x, y with
    | .error a, .error b =>
      if h : a = b then .isTrue (by rw [h])
      else .isFalse (by intro hc; injection hc; contradiction)
    | .error _, .ok _ => .isFalse (fun hc => Except.noConfusion hc)
    | .ok _, .error _ => .isFalse (fun hc => Except.noConfusion hc)
    | .ok a, .ok b =>
      if h : a = b then .isTrue (by rw [h])
      else .isFalse (by intro hc; injection hc; contradiction)

section Helpers

/-- Successful parses decompose into successful stages: the token list is
nonempty, its head is the station, the AUTO flag and remarks are computed
from the whole list, and each fallible stage returned the corresponding
fields. -/
lemma parseTokens_ok_split (d : Nat × Nat) (parts : List String) (o : Obs)
    (h : parseTokens d parts = .ok o) :
    ∃ loc rest, parts = loc :: rest ∧
      o.loc_code = loc ∧
      o.auto = pyContains parts "AUTO" ∧
      o.remarks = pyRemarks parts ∧
      tsStage d parts = .ok o.timestamp ∧
      windStage parts = .ok (o.winddir, o.windspd, o.windgust) ∧
      tempStage parts = .ok (o.temp, o.dewpt) ∧
      parse_cav parts = .ok (o.clouds, o.vis, o.weather) := by
  cases parts with
  | nil => simp [parseTokens] at h
  | cons loc rest =>
    unfold parseTokens at h
    cases hts : tsStage d (loc :: rest) with
    | error e => simp [hts] at h
    | ok ts =>
      simp only [hts] at h
      cases hw : windStage (loc :: rest) with
      | error e => simp [hw] at h
      | ok wtr =>
        obtain ⟨wd, ws, wg⟩ := wtr
        simp only [hw] at h
        cases ht : tempStage (loc :: rest) with
        | error e => simp [ht] at h
        | ok tdp =>
          obtain ⟨t, dp⟩ := tdp
          simp only [ht] at h
          cases hc : parse_cav (loc :: rest) with
          | error e => simp [hc] at h
          | ok cvw =>
            obtain ⟨cl, v, w⟩ := cvw
            simp only [hc] at h
            injection h with h2
            subst h2
            exact ⟨loc, rest, rfl, rfl, rfl, rfl, rfl, rfl, rfl, rfl⟩

/-- A filter over a list of inert elements is empty. -/
lemma filter_false_nil (q : String → Bool) (l : List String)
    (h : ∀ t ∈ l, q t = false) : l.filter q = [] := by
  induction l with
  | nil => rfl
  | cons a t ih =>
    simp [List.filter_cons, h a (by simp),
      ih (fun x hx => h x (by simp [hx]))]

/-- An any over a list of inert elements is false. -/
lemma any_false (q : String → Bool) (l : List String)
    (h : ∀ t ∈ l, q t = false) : l.any q = false := by
  induction l with
  | nil => rfl
  | cons a t ih =>
    simp [List.any_cons, h a (by simp),
      ih (fun x hx => h x (by simp [hx]))]

/-- pyContains agrees with list membership. -/
lemma pyContains_iff (l : List String) (x : String) :
    pyContains l x = true ↔ x ∈ l := by
  simp [pyContains, List.any_eq_true, beq_iff_eq]

end Helpers

/-- C3: a report whose token sequence contains the literal token CAVOK and
parses successfully yields visibility 10, no cloud layers, and the empty
weather string, whatever other tokens are present. -/
theorem cavok_forces_vis_clouds_weather (d : Nat × Nat) (s : String)
    (hcav : pyContains (pySplitC s ' ') "CAVOK" = true)
    (hok : isOkE (parse d s) = true) :
    (parse d s).map (fun o => (o.vis, o.clouds, o.weather)) = .ok (10, [], "") := by
  cases hp : parse d s with
  | error e => rw [hp] at hok; simp [isOkE] at hok
  | ok o =>
    obtain ⟨loc, rest, hparts, -, -, -, -, -, -, hc⟩ :=
      parseTokens_ok_split d (pySplitC s ' ') o hp
    unfold parse_cav at hc
    simp only [hcav, if_true] at hc
    simp only [Except.map]
    simp only [Except.ok.injEq, Prod.mk.injEq] at hc ⊢
    exact ⟨hc.2.1.symm, hc.1.symm, hc.2.2.symm⟩

/-- C3 witness: a concrete CAVOK report. -/
theorem cavok_forces_vis_clouds_weather_wit :
    pyContains (pySplitC "KGFK 262353Z 24011KT CAVOK 20/03" ' ') "CAVOK" = true ∧
    isOkE (parse (2026, 10) "KGFK 262353Z 24011KT CAVOK 20/03") = true ∧
    (parse (2026, 10) "KGFK 262353Z 24011KT CAVOK 20/03").map
      (fun o => (o.vis, o.clouds, o.weather)) = .ok (10, [], "") :=
  ⟨by decide, by decide,
    cavok_forces_vis_clouds_weather (2026, 10) "KGFK 262353Z 24011KT CAVOK 20/03"
      (by decide) (by decide)⟩

/-- C7: when no token of the report ends in Z, parse raises the
group-location failure (the IndexError of the [0] index on line 141, the
MissingField case of the spec) before any observation is built; the error
result carries no partial observation. -/
theorem missing_z_token_fails (d : Nat × Nat) (s : String)
    (hall : (pySplitC s ' ').all (fun p => !isZTok p) = true) :
    parse d s = .error .indexError := by
  unfold parse
  have hmem : ∀ p ∈ pySplitC s ' ', isZTok p = false := by
    intro p hp
    have := List.all_eq_true.mp hall p hp
    simpa using this
  have hnil : (pySplitC s ' ').filter isZTok = [] := filter_false_nil _ _ hmem
  cases hps : pySplitC s ' ' with
  | nil => simp [parseTokens]
  | cons a t =>
    rw [hps] at hnil
    simp [parseTokens, tsStage, findFirst, hnil]

/-- C7 witness: a concrete report with no Z-terminated token. -/
theorem missing_z_token_fails_wit :
    ((pySplitC "KGFK 24011KT 10SM 20/03" ' ').all (fun p => !isZTok p) = true) ∧
    parse (2026, 10) "KGFK 24011KT 10SM 20/03" = .error .indexError :=
  ⟨by decide,
    missing_z_token_fails (2026, 10) "KGFK 24011KT 10SM 20/03" (by decide)⟩

/-- C1 counterexample: a cloud token placed after RMK is still decoded, so
the parse of a report differs from the parse of its truncation at RMK on
the clouds field, refuting the claimed exclusion of remark tokens from
field searches. -/
theorem remarks_not_excluded_cex :
    (parse (2026, 10) "KGFK 262353Z 24011KT 10SM 20/03 RMK BKN100").map
      (fun o => o.clouds) = .ok ["broken at 10000"] ∧
    (parse (2026, 10) "KGFK 262353Z 24011KT 10SM 20/03").map
      (fun o => o.clouds) = .ok [] ∧
    (Except.ok ["broken at 10000"] : Except PyErr (List String)) ≠ .ok [] :=
  ⟨by decide, by decide, by decide⟩

/-- C2 counterexample: the identical report string parses to different
observations under two ambient wall-clock dates (the timestamp month
differs), refuting independence from the current date. -/
theorem wallclock_dependence_cex :
    parse (2026, 10) "KGFK 262353Z 24011KT 10SM 20/03" ≠
      parse (2026, 11) "KGFK 262353Z 24011KT 10SM 20/03" := by decide

/-- C4 counterexample: for the wind group VRB05KT the decoder stores the
raw three-character string VRB, not the claimed sentinel "variable". -/
theorem vrb_direction_cex :
    (parse (2026, 10) "KGFK 262353Z VRB05KT 10SM 20/03").map
      (fun o => o.winddir) = .ok (.inr "VRB") ∧
    (Except.ok (.inr "VRB" : Int ⊕ String) : Except PyErr (Int ⊕ String)) ≠
      .ok (.inr "variable") :=
  ⟨by decide, by decide⟩

/-- C5 counterexample: the remarks field keeps the RMK marker token
itself, refuting the claim that remarks start strictly after it. -/
theorem remarks_include_marker_cex :
    (parse (2026, 10) "KGFK 262353Z 24011KT 10SM 20/03 RMK AO2").map
      (fun o => o.remarks) = .ok ["RMK", "AO2"] ∧
    (Except.ok ["RMK", "AO2"] : Except PyErr (List String)) ≠ .ok ["AO2"] :=
  ⟨by decide, by decide⟩

/-- C4 (amended): when the located wind token is VRB05KT, the decoder
keeps the raw leading three characters VRB as the direction (the int()
failure is swallowed and the string shown verbatim), with speed 5 and
gust 0. -/
theorem vrb_wind_kept_raw (d : Nat × Nat) (s : String)
    (hok : isOkE (parse d s) = true)
    (hf : findFirst isWindTok (pySplitC s ' ') = some "VRB05KT") :
    (parse d s).map (fun o => (o.winddir, o.windspd, o.windgust)) =
      .ok (.inr "VRB", 5, 0) := by
  cases hp : parse d s with
  | error e => rw [hp] at hok; simp [isOkE] at hok
  | ok o =>
    obtain ⟨loc, rest, hparts, -, -, -, -, hw, -, -⟩ :=
      parseTokens_ok_split d (pySplitC s ' ') o hp
    unfold windStage at hw
    rw [hf] at hw
    have hw2 : decodeWind "VRB05KT" =
        Except.ok (o.winddir, o.windspd, o.windgust) := hw
    have hd : decodeWind "VRB05KT" = .ok (Sum.inr "VRB", 5, 0) := by decide
    have hcomb := hd.symm.trans hw2
    simp only [Except.map]
    simp only [Except.ok.injEq, Prod.mk.injEq] at hcomb ⊢
    exact ⟨hcomb.1.symm, hcomb.2.1.symm, hcomb.2.2.symm⟩

/-- C4 witness: the concrete VRB report. -/
theorem vrb_wind_kept_raw_wit :
    isOkE (parse (2026, 10) "KGFK 262353Z VRB05KT 10SM 20/03") = true ∧
    findFirst isWindTok (pySplitC "KGFK 262353Z VRB05KT 10SM 20/03" ' ') =
      some "VRB05KT" ∧
    (parse (2026, 10) "KGFK 262353Z VRB05KT 10SM 20/03").map
      (fun o => (o.winddir, o.windspd, o.windgust)) = .ok (.inr "VRB", 5, 0) :=
  ⟨by decide, by decide,
    vrb_wind_kept_raw (2026, 10) "KGFK 262353Z VRB05KT 10SM 20/03"
      (by decide) (by decide)⟩

/-- Splitting a token list at the first RMK. -/
lemma pyRemarks_decomp (l : List String) :
    l = l.takeWhile (fun p => !(p == "RMK")) ++ pyRemarks l := by
  induction l with
  | nil => rfl
  | cons a t ih =>
    cases hb : (a == "RMK") with
    | true => simp [pyRemarks, List.takeWhile_cons, hb]
    | false =>
      simp [pyRemarks, List.takeWhile_cons, hb]
      exact ih

/-- The head of the remarks slice is the marker exactly when present. -/
lemma pyRemarks_head (l : List String) :
    (pyRemarks l).head? =
      (if pyContains l "RMK" = true then some "RMK" else none) := by
  induction l with
  | nil => simp [pyRemarks, pyContains]
  | cons a t ih =>
    cases hb : (a == "RMK") with
    | true =>
      have ha : a = "RMK" := by simpa using hb
      subst ha
      simp [pyRemarks, pyContains, List.any_cons]
    | false =>
      rw [show pyRemarks (a :: t) = pyRemarks t from by simp [pyRemarks, hb]]
      rw [show pyContains (a :: t) "RMK" = pyContains t "RMK" from by
        simp [pyContains, List.any_cons, hb]]
      exact ih

/-- The remarks slice is empty exactly when the marker is absent. -/
lemma pyRemarks_isEmpty (l : List String) :
    (pyRemarks l).isEmpty = !(pyContains l "RMK") := by
  induction l with
  | nil => simp [pyRemarks, pyContains]
  | cons a t ih =>
    cases hb : (a == "RMK") with
    | true =>
      have ha : a = "RMK" := by simpa using hb
      subst ha
      simp [pyRemarks, pyContains, List.any_cons]
    | false =>
      rw [show pyRemarks (a :: t) = pyRemarks t from by simp [pyRemarks, hb]]
      rw [show pyContains (a :: t) "RMK" = pyContains t "RMK" from by
        simp [pyContains, List.any_cons, hb]]
      exact ih

/-- Everything kept before the remarks slice differs from the marker. -/
lemma takeWhile_all_not_rmk (l : List String) :
    (l.takeWhile (fun p => !(p == "RMK"))).all (fun t => !(t == "RMK")) = true := by
  rw [List.all_eq_true]
  intro x hx
  exact List.mem_takeWhile_imp (p := fun p => !(p == "RMK")) hx

/-- C5 (amended): the remarks field is the token suffix starting at the
first RMK marker, marker included: the token list splits into a prefix
with no RMK followed by remarks, remarks start with RMK exactly when the
marker occurs, and remarks are empty exactly when it does not. -/
theorem remarks_are_rmk_suffix (d : Nat × Nat) (s : String) (o : Obs)
    (h : parse d s = .ok o) :
    pySplitC s ' ' =
      (pySplitC s ' ').takeWhile (fun p => !(p == "RMK")) ++ o.remarks ∧
    ((pySplitC s ' ').takeWhile (fun p => !(p == "RMK"))).all
      (fun t => !(t == "RMK")) = true ∧
    o.remarks.head? =
      (if pyContains (pySplitC s ' ') "RMK" = true then some "RMK" else none) ∧
    o.remarks.isEmpty = !(pyContains (pySplitC s ' ') "RMK") := by
  obtain ⟨loc, rest, hparts, -, -, hrem, -, -, -, -⟩ :=
    parseTokens_ok_split d (pySplitC s ' ') o h
  refine ⟨?_, takeWhile_all_not_rmk _, ?_, ?_⟩
  · rw [hrem]; exact pyRemarks_decomp _
  · rw [hrem]; exact pyRemarks_head _
  · rw [hrem]; exact pyRemarks_isEmpty _

/-- obsRMK is the decoded observation of the C5 witness report. -/
def obsRMK : Obs :=
  ⟨"KGFK", false, ["RMK", "AO2"], ⟨2026, 10, 26, 23, 53⟩, .inl 240, 11, 0,
    20, 3, [], 10, "nothing!"⟩

/-- C5 witness: a concrete report with a remarks section. -/
theorem remarks_are_rmk_suffix_wit :
    parse (2026, 10) "KGFK 262353Z 24011KT 10SM 20/03 RMK AO2" = .ok obsRMK ∧
    (pySplitC "KGFK 262353Z 24011KT 10SM 20/03 RMK AO2" ' ' =
      (pySplitC "KGFK 262353Z 24011KT 10SM 20/03 RMK AO2" ' ').takeWhile
        (fun p => !(p == "RMK")) ++ obsRMK.remarks ∧
    ((pySplitC "KGFK 262353Z 24011KT 10SM 20/03 RMK AO2" ' ').takeWhile
      (fun p => !(p == "RMK"))).all (fun t => !(t == "RMK")) = true ∧
    obsRMK.remarks.head? =
      (if pyContains (pySplitC "KGFK 262353Z 24011KT 10SM 20/03 RMK AO2" ' ')
          "RMK" = true then some "RMK" else none) ∧
    obsRMK.remarks.isEmpty =
      !(pyContains (pySplitC "KGFK 262353Z 24011KT 10SM 20/03 RMK AO2" ' ')
          "RMK")) :=
  ⟨by decide,
    remarks_are_rmk_suffix (2026, 10) "KGFK 262353Z 24011KT 10SM 20/03 RMK AO2"
      obsRMK (by decide)⟩

/-- C6: when CAVOK is absent and the located weather token is the bare
-RA group, the rendered weather is the string with the intensity-modifier
name first: slight rain. -/
theorem minus_ra_renders_slight_rain (d : Nat × Nat) (s : String)
    (hok : isOkE (parse d s) = true)
    (hcv : pyContains (pySplitC s ' ') "CAVOK" = false)
    (hf : findFirst isWxTok (pySplitC s ' ') = some "-RA") :
    (parse d s).map (fun o => o.weather) = .ok "slight rain" := by
  cases hp : parse d s with
  | error e => rw [hp] at hok; simp [isOkE] at hok
  | ok o =>
    obtain ⟨loc, rest, hparts, -, -, -, -, -, -, hc⟩ :=
      parseTokens_ok_split d (pySplitC s ' ') o hp
    unfold parse_cav at hc
    simp only [hcv, Bool.false_eq_true, if_false] at hc
    cases hce : parse_ceil (pySplitC s ' ') with
    | error e => simp [hce] at hc
    | ok cl =>
      simp only [hce] at hc
      cases hv : parse_vis (pySplitC s ' ') with
      | error e => simp [hv] at hc
      | ok v =>
        simp only [hv] at hc
        have hwx : parse_wx (pySplitC s ' ') = "slight rain" := by
          unfold parse_wx
          rw [hf]
          decide
        simp only [Except.ok.injEq, Prod.mk.injEq] at hc
        simp only [Except.map, Except.ok.injEq]
        rw [← hc.2.2, hwx]

/-- C6 witness: the concrete -RA report. -/
theorem minus_ra_renders_slight_rain_wit :
    isOkE (parse (2026, 10) "KGFK 262353Z 24011KT 10SM -RA 20/03") = true ∧
    pyContains (pySplitC "KGFK 262353Z 24011KT 10SM -RA 20/03" ' ')
      "CAVOK" = false ∧
    findFirst isWxTok (pySplitC "KGFK 262353Z 24011KT 10SM -RA 20/03" ' ') =
      some "-RA" ∧
    (parse (2026, 10) "KGFK 262353Z 24011KT 10SM -RA 20/03").map
      (fun o => o.weather) = .ok "slight rain" :=
  ⟨by decide, by decide, by decide,
    minus_ra_renders_slight_rain (2026, 10) "KGFK 262353Z 24011KT 10SM -RA 20/03"
      (by decide) (by decide) (by decide)⟩

/-- Every successfully decoded cloud token contributes its decoded layer
to the output list. -/
lemma decodeLayers_mem : ∀ (l ds : List String),
    decodeLayers l = .ok ds → ∀ x y, x ∈ l → decodeLayer x = .ok y → y ∈ ds := by
  intro l
  induction l with
  | nil => intro ds h x y hx hy; simp at hx
  | cons a t ih =>
    intro ds h x y hx hy
    unfold decodeLayers at h
    cases hda : decodeLayer a with
    | error e => simp [hda] at h
    | ok d0 =>
      simp only [hda] at h
      cases hdt : decodeLayers t with
      | error e => simp [hdt] at h
      | ok ds0 =>
        simp only [hdt] at h
        injection h with h2
        subst h2
        rcases List.mem_cons.mp hx with rfl | hxt
        · rw [hda] at hy
          injection hy with hy2
          subst hy2
          exact List.mem_cons_self _ _
        · exact List.mem_cons_of_mem _ (ih ds0 hdt x y hxt hy)

/-- C8: a report containing the token BKN100 with none of the CAVOK, NSC,
SKC short-circuits decodes a cloud layer described as broken at 10000:
the leading three characters select the cover name and the remaining
digits are scaled by 100. -/
theorem bkn100_decodes_broken_10000 (d : Nat × Nat) (s : String)
    (hok : isOkE (parse d s) = true)
    (hb : pyContains (pySplitC s ' ') "BKN100" = true)
    (hcv : pyContains (pySplitC s ' ') "CAVOK" = false)
    (hn : pyContains (pySplitC s ' ') "NSC" = false)
    (hk : pyContains (pySplitC s ' ') "SKC" = false) :
    (parse d s).map (fun o => pyContains o.clouds "broken at 10000") = .ok true := by
  cases hp : parse d s with
  | error e => rw [hp] at hok; simp [isOkE] at hok
  | ok o =>
    obtain ⟨loc, rest, hparts, -, -, -, -, -, -, hc⟩ :=
      parseTokens_ok_split d (pySplitC s ' ') o hp
    unfold parse_cav at hc
    simp only [hcv, Bool.false_eq_true, if_false] at hc
    cases hce : parse_ceil (pySplitC s ' ') with
    | error e => simp [hce] at hc
    | ok cl =>
      simp only [hce] at hc
      cases hv : parse_vis (pySplitC s ' ') with
      | error e => simp [hv] at hc
      | ok v =>
        simp only [hv] at hc
        simp only [Except.ok.injEq, Prod.mk.injEq] at hc
        unfold parse_ceil at hce
        simp only [hn, hk, Bool.or_self, Bool.false_eq_true, if_false] at hce
        have hmem : "BKN100" ∈ (pySplitC s ' ').filter isCloudTok := by
          rw [List.mem_filter]
          exact ⟨(pyContains_iff _ _).mp hb, by decide⟩
        have hdl : decodeLayer "BKN100" = .ok "broken at 10000" := by decide
        have hmem2 : "broken at 10000" ∈ cl :=
          decodeLayers_mem _ _ hce "BKN100" _ hmem hdl
        simp only [Except.map, Except.ok.injEq]
        apply (pyContains_iff _ _).mpr
        rw [← hc.1]
        exact hmem2

/-- Two token lists on which every group finder, membership test and the
cloud filter agree decode to the same observation up to remarks (errors
included).  This isolates exactly the projections of the token list that
parse consumes. -/
lemma parseTokens_agree (d : Nat × Nat) (p1 p2 : List String)
    (hh : p1.head? = p2.head?)
    (ha : pyContains p1 "AUTO" = pyContains p2 "AUTO")
    (hz : findFirst isZTok p1 = findFirst isZTok p2)
    (hw : findFirst isWindTok p1 = findFirst isWindTok p2)
    (ht : findFirst tempMatch p1 = findFirst tempMatch p2)
    (hcv : pyContains p1 "CAVOK" = pyContains p2 "CAVOK")
    (hn : pyContains p1 "NSC" = pyContains p2 "NSC")
    (hk : pyContains p1 "SKC" = pyContains p2 "SKC")
    (hcl : p1.filter isCloudTok = p2.filter isCloudTok)
    (hv : findFirst isVisTok p1 = findFirst isVisTok p2)
    (hx : findFirst isWxTok p1 = findFirst isWxTok p2) :
    (parseTokens d p1).map stripRemarks = (parseTokens d p2).map stripRemarks := by
  have hts : tsStage d p1 = tsStage d p2 := by unfold tsStage; rw [hz]
  have hws : windStage p1 = windStage p2 := by unfold windStage; rw [hw]
  have htp : tempStage p1 = tempStage p2 := by unfold tempStage; rw [ht]
  have hch : parse_ceil p1 = parse_ceil p2 := by unfold parse_ceil; rw [hn, hk, hcl]
  have hvh : parse_vis p1 = parse_vis p2 := by unfold parse_vis; rw [hv]
  have hxh : parse_wx p1 = parse_wx p2 := by unfold parse_wx; rw [hx]
  have hcvh : parse_cav p1 = parse_cav p2 := by
    unfold parse_cav
    simp only [hcv, hch, hvh, hxh]
  cases p1 with
  | nil =>
    cases p2 with
    | nil => rfl
    | cons b l2 => simp at hh
  | cons a l1 =>
    cases p2 with
    | nil => simp at hh
    | cons b l2 =>
      have hab : a = b := by simpa using hh
      subst hab
      simp only [parseTokens]
      simp only [hts, hws, htp, hcvh, ha]
      cases tsStage d (a :: l2) with
      | error e => rfl
      | ok ts =>
        cases windStage (a :: l2) with
        | error e => rfl
        | ok wtr =>
          obtain ⟨wd, ws, wg⟩ := wtr
          cases tempStage (a :: l2) with
          | error e => rfl
          | ok tdp =>
            obtain ⟨t, dp⟩ := tdp
            cases parse_cav (a :: l2) with
            | error e => rfl
            | ok cvw =>
              obtain ⟨cl, v, w⟩ := cvw
              simp [Except.map, stripRemarks]

/-- A finder only depends on the filtered sublist. -/
lemma findFirst_ext (q : String → Bool) (p1 p2 : List String)
    (h : p1.filter q = p2.filter q) : findFirst q p1 = findFirst q p2 := by
  unfold findFirst; rw [h]

/-- Inserting one token the predicate rejects does not change a filter. -/
lemma filter_mid_inert (q : String → Bool) (x : String) (hq : q x = false)
    (xs ys : List String) :
    (xs ++ x :: ys).filter q = (xs ++ ys).filter q := by
  simp [List.filter_append, List.filter_cons, hq]

/-- Inserting one token different from the probe does not change a
membership test. -/
lemma pyContains_mid_inert (x a : String) (hx : (x == a) = false)
    (xs ys : List String) :
    pyContains (xs ++ x :: ys) a = pyContains (xs ++ ys) a := by
  simp [pyContains, List.any_append, List.any_cons, hx]

/-- C9: a report that parses successfully still parses after an empty
token (the product of a doubled space in the raw string) is inserted
anywhere after the station token, and every decoded field - station, AUTO
flag, timestamp, wind, temperature, clouds, visibility, weather - is
unchanged; only the remarks slice can absorb the empty token, so equality
is stated up to remarks. -/
theorem empty_token_tolerated (d : Nat × Nat) (x : String) (xs ys : List String)
    (o : Obs) (h : parseTokens d ((x :: xs) ++ ys) = .ok o) :
    (parseTokens d ((x :: xs) ++ "" :: ys)).map stripRemarks =
      .ok (stripRemarks o) := by
  have hag := parseTokens_agree d ((x :: xs) ++ "" :: ys) ((x :: xs) ++ ys)
    (by simp)
    (pyContains_mid_inert "" "AUTO" (by decide) (x :: xs) ys)
    (findFirst_ext _ _ _ (filter_mid_inert isZTok "" (by decide) (x :: xs) ys))
    (findFirst_ext _ _ _ (filter_mid_inert isWindTok "" (by decide) (x :: xs) ys))
    (findFirst_ext _ _ _ (filter_mid_inert tempMatch "" (by decide) (x :: xs) ys))
    (pyContains_mid_inert "" "CAVOK" (by decide) (x :: xs) ys)
    (pyContains_mid_inert "" "NSC" (by decide) (x :: xs) ys)
    (pyContains_mid_inert "" "SKC" (by decide) (x :: xs) ys)
    (filter_mid_inert isCloudTok "" (by decide) (x :: xs) ys)
    (findFirst_ext _ _ _ (filter_mid_inert isVisTok "" (by decide) (x :: xs) ys))
    (findFirst_ext _ _ _ (filter_mid_inert isWxTok "" (by decide) (x :: xs) ys))
  rw [h] at hag
  exact hag

/-- obsPlain is the decoded observation of the C9 witness report. -/
def obsPlain : Obs :=
  ⟨"KGFK", false, [], ⟨2026, 10, 26, 23, 53⟩, .inl 240, 11, 0, 20, 3, [],
    10, "nothing!"⟩

/-- C9 witness: inserting an empty token into a concrete report. -/
theorem empty_token_tolerated_wit :
    parseTokens (2026, 10)
      (("KGFK" :: ["262353Z", "24011KT", "10SM"]) ++ ["20/03"]) = .ok obsPlain ∧
    (parseTokens (2026, 10)
      (("KGFK" :: ["262353Z", "24011KT", "10SM"]) ++ "" :: ["20/03"])).map
      stripRemarks = .ok (stripRemarks obsPlain) :=
  ⟨by decide,
    empty_token_tolerated (2026, 10) "KGFK" ["262353Z", "24011KT", "10SM"]
      ["20/03"] obsPlain (by decide)⟩

/-- inertTok collects what it means for a token to be invisible to every
group finder: it matches no finder predicate and is none of the literal
tokens the decoder tests for membership. -/
def inertTok (t : String) : Bool :=
  !isZTok t && !isWindTok t && !tempMatch t && !isCloudTok t && !isVisTok t &&
  !isWxTok t && !(t == "AUTO") && !(t == "CAVOK") && !(t == "NSC") &&
  !(t == "SKC")

/-- C1 (amended): the RMK slice is not excluded from field searches, but
when every token after RMK is inert for every finder (the RMK token
itself always is), parsing the full report agrees with parsing the report
truncated at RMK on every field except remarks, errors included. -/
theorem truncation_at_rmk_with_inert_remarks (d : Nat × Nat) (x : String)
    (pre post : List String) (hin : post.all inertTok = true) :
    (parseTokens d ((x :: pre) ++ "RMK" :: post)).map stripRemarks =
      (parseTokens d (x :: pre)).map stripRemarks := by
  have hmem : ∀ t ∈ post, inertTok t = true := List.all_eq_true.mp hin
  have hfacts : ∀ t ∈ post, isZTok t = false ∧ isWindTok t = false ∧
      tempMatch t = false ∧ isCloudTok t = false ∧ isVisTok t = false ∧
      isWxTok t = false ∧ (t == "AUTO") = false ∧ (t == "CAVOK") = false ∧
      (t == "NSC") = false ∧ (t == "SKC") = false := by
    intro t ht
    have h2 := hmem t ht
    simp only [inertTok, Bool.and_eq_true, Bool.not_eq_true'] at h2
    tauto
  have hfil : ∀ q : String → Bool, q "RMK" = false → (∀ t ∈ post, q t = false) →
      ((x :: pre) ++ "RMK" :: post).filter q = (x :: pre).filter q := by
    intro q hq hqp
    simp [List.filter_append, List.filter_cons, hq, filter_false_nil q post hqp]
  have hcon : ∀ a : String, ("RMK" == a) = false →
      (∀ t ∈ post, (t == a) = false) →
      pyContains ((x :: pre) ++ "RMK" :: post) a = pyContains (x :: pre) a := by
    intro a ha hpa
    simp [pyContains, List.any_append, List.any_cons, ha,
      any_false _ post hpa]
  exact parseTokens_agree d ((x :: pre) ++ "RMK" :: post) (x :: pre)
    (by simp)
    (hcon "AUTO" (by decide) (fun t ht => (hfacts t ht).2.2.2.2.2.2.1))
    (findFirst_ext _ _ _
      (hfil isZTok (by decide) (fun t ht => (hfacts t ht).1)))
    (findFirst_ext _ _ _
      (hfil isWindTok (by decide) (fun t ht => (hfacts t ht).2.1)))
    (findFirst_ext _ _ _
      (hfil tempMatch (by decide) (fun t ht => (hfacts t ht).2.2.1)))
    (hcon "CAVOK" (by decide) (fun t ht => (hfacts t ht).2.2.2.2.2.2.2.1))
    (hcon "NSC" (by decide) (fun t ht => (hfacts t ht).2.2.2.2.2.2.2.2.1))
    (hcon "SKC" (by decide) (fun t ht => (hfacts t ht).2.2.2.2.2.2.2.2.2))
    (hfil isCloudTok (by decide) (fun t ht => (hfacts t ht).2.2.2.1))
    (findFirst_ext _ _ _
      (hfil isVisTok (by decide) (fun t ht => (hfacts t ht).2.2.2.2.1)))
    (findFirst_ext _ _ _
      (hfil isWxTok (by decide) (fun t ht => (hfacts t ht).2.2.2.2.2.1)))

/-- C1 witness: truncating a concrete report with an inert remarks
section. -/
theorem truncation_at_rmk_with_inert_remarks_wit :
    (["AO2"] : List String).all inertTok = true ∧
    (parseTokens (2026, 10)
      (("KGFK" :: ["262353Z", "24011KT", "10SM", "20/03"]) ++
        "RMK" :: ["AO2"])).map stripRemarks =
      (parseTokens (2026, 10)
        ("KGFK" :: ["262353Z", "24011KT", "10SM", "20/03"])).map stripRemarks :=
  ⟨by decide,
    truncation_at_rmk_with_inert_remarks (2026, 10) "KGFK"
      ["262353Z", "24011KT", "10SM", "20/03"] ["AO2"] (by decide)⟩

/-- C8 witness: the concrete BKN100 report. -/
theorem bkn100_decodes_broken_10000_wit :
    isOkE (parse (2026, 10) "KGFK 262353Z 24011KT 10SM BKN100 20/03") = true ∧
    pyContains (pySplitC "KGFK 262353Z 24011KT 10SM BKN100 20/03" ' ')
      "BKN100" = true ∧
    (parse (2026, 10) "KGFK 262353Z 24011KT 10SM BKN100 20/03").map
      (fun o => pyContains o.clouds "broken at 10000") = .ok true :=
  ⟨by decide, by decide,
    bkn100_decodes_broken_10000 (2026, 10) "KGFK 262353Z 24011KT 10SM BKN100 20/03"
      (by decide) (by decide) (by decide) (by decide) (by decide)⟩

/-- coreFields projects every observation field except the timestamp. -/
def coreFields (o : Obs) :
    String × Bool × List String × (Int ⊕ String) × Int × Int × Int × Int ×
      List String × ℚ × String :=
  (o.loc_code, o.auto, o.remarks, o.winddir, o.windspd, o.windgust, o.temp,
    o.dewpt, o.clouds, o.vis, o.weather)

/-- tsFields projects the parts of the timestamp read from the report
itself, as opposed to the year and month taken from the ambient date. -/
def tsFields (o : Obs) : Nat × Nat × Nat :=
  (o.timestamp.day, o.timestamp.hour, o.timestamp.minute)

/-- Two successful timestamp decodes of the same token under different
ambient dates agree on the day, hour and minute read from the token. -/
lemma parseTimestamp_body (d1 d2 : Nat × Nat) (tok : String) (t1 t2 : PyDatetime)
    (h1 : parseTimestamp d1 tok = .ok t1) (h2 : parseTimestamp d2 tok = .ok t2) :
    t1.day = t2.day ∧ t1.hour = t2.hour ∧ t1.minute = t2.minute := by
  unfold parseTimestamp at h1 h2
  cases hd : digits6 tok.data.dropLast with
  | none => simp [hd] at h1
  | some trip =>
    obtain ⟨dd, hh, mm⟩ := trip
    simp only [hd] at h1 h2
    split at h1
    · split at h2
      · injection h1 with e1
        injection h2 with e2
        subst e1
        subst e2
        exact ⟨rfl, rfl, rfl⟩
      · simp at h2
    · simp at h1

/-- C2 (amended): parse is a pure function of the report and the ambient
(year, month); under two different ambient dates, two successful parses
of the same report agree on every field except the timestamp, and their
timestamps agree on the day, hour and minute read from the report. -/
theorem parse_deterministic_modulo_date (d1 d2 : Nat × Nat) (s : String)
    (h1 : isOkE (parse d1 s) = true) (h2 : isOkE (parse d2 s) = true) :
    (parse d1 s).map coreFields = (parse d2 s).map coreFields ∧
    (parse d1 s).map tsFields = (parse d2 s).map tsFields := by
  cases hp1 : parse d1 s with
  | error e => rw [hp1] at h1; simp [isOkE] at h1
  | ok o1 =>
    cases hp2 : parse d2 s with
    | error e => rw [hp2] at h2; simp [isOkE] at h2
    | ok o2 =>
      obtain ⟨loc1, rest1, hq1, hl1, ha1, hr1, hts1, hw1, htp1, hc1⟩ :=
        parseTokens_ok_split d1 (pySplitC s ' ') o1 hp1
      obtain ⟨loc2, rest2, hq2, hl2, ha2, hr2, hts2, hw2, htp2, hc2⟩ :=
        parseTokens_ok_split d2 (pySplitC s ' ') o2 hp2
      have hwind := hw1.symm.trans hw2
      have htemp := htp1.symm.trans htp2
      have hcav := hc1.symm.trans hc2
      simp only [Except.ok.injEq, Prod.mk.injEq] at hwind htemp hcav
      have hx : loc1 = loc2 := by
        have hcons := hq1.symm.trans hq2
        simp only [List.cons.injEq] at hcons
        exact hcons.1
      have hloc : o1.loc_code = o2.loc_code := by rw [hl1, hl2, hx]
      constructor
      · simp only [Except.map, Except.ok.injEq, coreFields, Prod.mk.injEq]
        exact ⟨hloc, by rw [ha1, ha2], by rw [hr1, hr2], hwind.1, hwind.2.1,
          hwind.2.2, htemp.1, htemp.2, hcav.1, hcav.2.1, hcav.2.2⟩
      · unfold tsStage at hts1 hts2
        cases hz : findFirst isZTok (pySplitC s ' ') with
        | none => simp [hz] at hts1
        | some ztok =>
          rw [hz] at hts1 hts2
          have hpt1 : parseTimestamp d1 ztok = .ok o1.timestamp := hts1
          have hpt2 : parseTimestamp d2 ztok = .ok o2.timestamp := hts2
          have hdhm := parseTimestamp_body d1 d2 ztok _ _ hpt1 hpt2
          simp only [Except.map, Except.ok.injEq, tsFields, Prod.mk.injEq]
          exact ⟨hdhm.1, hdhm.2.1, hdhm.2.2⟩

/-- C2 witness: the same concrete report under two ambient months. -/
theorem parse_deterministic_modulo_date_wit :
    isOkE (parse (2026, 10) "KGFK 262353Z 24011KT 10SM 20/03") = true ∧
    isOkE (parse (2026, 11) "KGFK 262353Z 24011KT 10SM 20/03") = true ∧
    ((parse (2026, 10) "KGFK 262353Z 24011KT 10SM 20/03").map coreFields =
      (parse (2026, 11) "KGFK 262353Z 24011KT 10SM 20/03").map coreFields ∧
    (parse (2026, 10) "KGFK 262353Z 24011KT 10SM 20/03").map tsFields =
      (parse (2026, 11) "KGFK 262353Z 24011KT 10SM 20/03").map tsFields) :=
  ⟨by decide, by decide,
    parse_deterministic_modulo_date (2026, 10) (2026, 11)
      "KGFK 262353Z 24011KT 10SM 20/03" (by decide) (by decide)⟩

/-- The gobble loop appends only real modifiers, so it preserves the
number of placeholder entries in the modifier list. -/
lemma gobble_count (cs : List Char) : ∀ gob codes mods,
    ((gobble cs gob codes mods).2).count none = mods.count none := by
  induction cs with
  | nil => intro gob codes mods; rfl
  | cons c rest ih =>
    intro gob codes mods
    simp only [gobble]
    split
    · exact ih _ _ _
    · split
      · rw [ih]
        simp [List.count_append, List.count_cons, beq_iff_eq]
      · exact ih _ _ _

/-- Stable insertion keeps element counts. -/
lemma insertAsc_count (x : Option String) (l : List (Option String))
    (y : Option String) :
    (insertAsc x l).count y = (x :: l).count y := by
  induction l with
  | nil => rfl
  | cons a t ih =>
    simp only [insertAsc]
    split
    · rw [List.count_cons, ih, List.count_cons, List.count_cons,
        List.count_cons]
      omega
    · rfl

/-- The insertion-sort fold keeps element counts. -/
lemma foldl_insertAsc_count (l : List (Option String)) : ∀ acc y,
    (l.foldl (fun acc x => insertAsc x acc) acc).count y =
      acc.count y + l.count y := by
  induction l with
  | nil => intro acc y; simp
  | cons a t ih =>
    intro acc y
    simp only [List.foldl_cons]
    rw [ih, insertAsc_count]
    simp only [List.count_cons]
    omega

/-- The modifier sort keeps element counts. -/
lemma pySortMods_count (l : List (Option String)) (y : Option String) :
    (pySortMods l).count y = l.count y := by
  unfold pySortMods
  rw [foldl_insertAsc_count]
  simp

/-- Name replacement keeps the placeholder count. -/
lemma map_optmap_count_none (f : String → String) (l : List (Option String)) :
    (l.map (Option.map f)).count none = l.count none := by
  induction l with
  | nil => rfl
  | cons a t ih =>
    cases a with
    | none => simp [List.count_cons, ih]
    | some s => simp [List.count_cons, ih, beq_iff_eq]

/-- A list with no placeholder is a list of real entries. -/
lemma count_none_zero_somes (l : List (Option String))
    (h : l.count none = 0) : ∃ w : List String, l = w.map some := by
  induction l with
  | nil => exact ⟨[], rfl⟩
  | cons a t ih =>
    cases a with
    | none =>
      simp [List.count_cons] at h
    | some s =>
      have h2 : t.count none = 0 := by
        simp [List.count_cons, beq_iff_eq] at h
        exact h
      obtain ⟨w, rfl⟩ := ih h2
      exact ⟨s :: w, rfl⟩

/-- A list with exactly one placeholder splits around it into real
entries. -/
lemma count_none_one_decomp (l : List (Option String))
    (h : l.count none = 1) :
    ∃ pre suf : List String, l = pre.map some ++ none :: suf.map some := by
  induction l with
  | nil => simp at h
  | cons a t ih =>
    cases a with
    | none =>
      have h2 : t.count none = 0 := by
        simp [List.count_cons] at h
        omega
      obtain ⟨w, rfl⟩ := count_none_zero_somes t h2
      exact ⟨[], w, rfl⟩
    | some s =>
      have h2 : t.count none = 1 := by
        simp [List.count_cons, beq_iff_eq] at h
        exact h
      obtain ⟨pre, suf, rfl⟩ := ih h2
      exact ⟨s :: pre, suf, rfl⟩

/-- Rendering a placeholder-free modifier list emits it verbatim. -/
lemma renderOut_somes (suf codes : List String) :
    renderOut (suf.map some) codes = suf := by
  induction suf with
  | nil => rfl
  | cons a t ih => simp [renderOut, ih]

/-- Rendering a modifier list with a single placeholder emits the prefix
modifiers, then the whole code block, then the suffix modifiers. -/
lemma renderOut_decomp (pre suf codes : List String) :
    renderOut (pre.map some ++ none :: suf.map some) codes =
      pre ++ codes ++ suf := by
  induction pre with
  | nil => simp [renderOut, renderOut_somes]
  | cons a t ih => simp [renderOut, ih]

/-- C10: for every weather field the sorted, name-replaced modifier list
holds exactly one placeholder, splits as real modifier names around that
single placeholder, and the rendered weather is those prefix names, then
the display names of all decoded phenomenon codes as one contiguous block
in discovery order (injected exactly once), then the suffix names, joined
by spaces. -/
theorem weather_codes_injected_once (field : String) :
    ∃ pre suf : List String,
      (namedMods field).count none = 1 ∧
      namedMods field = pre.map some ++ none :: suf.map some ∧
      renderWx field =
        String.intercalate " " (pre ++ codeNames field ++ suf) := by
  have h1 : (namedMods field).count none = 1 := by
    unfold namedMods
    rw [map_optmap_count_none, pySortMods_count]
    unfold decodeWx
    rw [gobble_count]
    decide
  obtain ⟨pre, suf, hdec⟩ := count_none_one_decomp _ h1
  refine ⟨pre, suf, h1, hdec, ?_⟩
  unfold renderWx
  rw [hdec, renderOut_decomp]

end Gswx
